import Mathlib

/-!
Verification of the user-resource module of the SQL_injection repository
(`src/src/lib/hash_password.ts`): the password hasher, the upload media-type
filter, the storage filename generator, and the signup / profile-update
route handlers, shallowly embedded in Lean 4.
-/

namespace UserModule

/-! ### JavaScript string `split` with a one-character separator

`toAcceptableImageMediaType` and `storage.filename` both call
`fullMimeType.split("/")`.  JavaScript's `String.prototype.split` with a
non-empty one-character separator returns the list of (possibly empty)
segments between the separator occurrences; `"".split("/") = [""]`,
`"a/".split("/") = ["a", ""]`.  We embed it as structural recursion over the
character list. -/

def splitOnChar (c : Char) : List Char → List (List Char)
  | [] => [[]]
  | x :: xs =>
    if x = c then [] :: splitOnChar c xs
    else
      match splitOnChar c xs with
      | [] => [[x]]
      | h :: t => (x :: h) :: t

/-- JavaScript `s.split(c)` for a one-character separator `c`. -/
def jsSplit (s : String) (c : Char) : List String :=
  (splitOnChar c s.data).map List.asString

/-- JavaScript array indexing `arr[i]` returning `undefined` past the end,
as an `Option`. -/
def jsIndex (l : List String) (i : Nat) : Option String :=
  l.get? i

/-- JavaScript falsiness of a possibly-`undefined` string: `undefined` and
`""` are falsy. -/
def jsFalsyStr : Option String → Bool
  | none => true
  | some s => s == ""

/-! ### The upload media-type filter (`fileFilter` in `upload`) -/

/-- `ACCEPTABLE_SUBTYPES = ["png", "jpeg"] as const` -/
def ACCEPTABLE_SUBTYPES : List String := ["png", "jpeg"]

/-- `isAcceptableSubtype`: membership in the fixed allow-list. -/
def isAcceptableSubtype (subtype : String) : Bool :=
  ACCEPTABLE_SUBTYPES.contains subtype

/-- `toAcceptableImageMediaType`: splits the declared type at `"/"`,
destructures the first two segments (`undefined` when missing), rejects when
either is falsy, when the type is not `"image"`, or when the subtype is not
allow-listed; otherwise returns the pair `["image", mediaSubtype]`. -/
def toAcceptableImageMediaType (fullMimeType : String) :
    Option (String × String) :=
  let parts := jsSplit fullMimeType '/'
  let mediaType := jsIndex parts 0
  let mediaSubtype := jsIndex parts 1
  if jsFalsyStr mediaType then none
  else if jsFalsyStr mediaSubtype then none
  else if mediaType ≠ some "image" then none
  else
    match mediaSubtype with
    | some sub => if isAcceptableSubtype sub then some ("image", sub) else none
    | none => none

/-- The rejection message passed to multer's callback as `new Error(...)`. -/
def rejectionMessage : String :=
  "Only image files in png or jpeg format can be uploaded"

/-- `fileFilter`: calls `cb(new Error(...))` when the declared type is not an
acceptable image media type, else `cb(null, true)`. -/
def fileFilter (mimetype : String) : Except String Bool :=
  match toAcceptableImageMediaType mimetype with
  | none => .error rejectionMessage
  | some _ => .ok true

example : toAcceptableImageMediaType "image/png" = some ("image", "png") := by
  decide

example : toAcceptableImageMediaType "image/jpeg" = some ("image", "jpeg") := by
  decide

example : toAcceptableImageMediaType "image/gif" = none := by decide

example : toAcceptableImageMediaType "text/plain" = none := by decide

example : toAcceptableImageMediaType "image" = none := by decide

example : toAcceptableImageMediaType "image/png/extra" = some ("image", "png") := by
  decide

/-! ### PasswordHasher (`HashPassword` over bcrypt)

`bcrypt` is an external library, not part of this repository's sources, so
its behaviour is modelled from the spec.  Per the spec, a hash is a
self-describing string encoding the cost factor, a fresh random salt, and a
digest; `compare` re-derives the hash from the salt and cost embedded in the
stored string and checks equality.  The salt, drawn randomly inside
`bcrypt.hash`, is made an explicit argument.  The digest is idealized as a
collision-free function of the plaintext: real bcrypt's one-wayness and its
negligible collision probability are not expressible in a shallow
embedding. -/

/-- Decimal digit `d` as a character. -/
def digitChar (d : Nat) : Char := Char.ofNat (48 + d)

/-- Big-endian decimal rendering of a natural number as characters. -/
def natChars (n : Nat) : List Char := (Nat.digits 10 n).reverse.map digitChar

/-- Numeric value of a decimal digit character. -/
def charDigit (c : Char) : Nat := c.toNat - 48

/-- Decode a big-endian decimal character rendering. -/
def decChars (l : List Char) : Nat := Nat.ofDigits 10 (l.reverse.map charDigit)

/-- Split a character list at the first occurrence of `c`: the part before
it and the part after it (the whole list and `[]` when `c` is absent). -/
def splitAtChar (c : Char) : List Char → List Char × List Char
  | [] => ([], [])
  | x :: xs =>
    if x = c then ([], xs)
    else
      let p := splitAtChar c xs
      (x :: p.1, p.2)

/-- Modelled from the spec: the character data of a bcrypt hash, laid out as
`<cost>$<salt>$<digest>` with an idealized collision-free digest. -/
def bcryptHashData (plain : String) (cost salt : Nat) : List Char :=
  natChars cost ++ ('$' :: (natChars salt ++ ('$' :: plain.data)))

/-- Modelled from the spec: `bcrypt.hash(plain, cost)`, the fresh random
salt made explicit. -/
def bcryptHash (plain : String) (cost salt : Nat) : String :=
  (bcryptHashData plain cost salt).asString

/-- Modelled from the spec: `bcrypt.compare(plain, hash)` extracts the cost
and salt embedded in `hash`, recomputes the hash of `plain` with them, and
checks equality against the stored string. -/
def bcryptCompare (plain : String) (hash : String) : Bool :=
  hash.data == bcryptHashData plain
    (decChars (splitAtChar '$' hash.data).1)
    (decChars (splitAtChar '$' (splitAtChar '$' hash.data).2).1)

/-- `class HashPassword`, whose constructor sets `saltRounds = 10`. -/
structure HashPassword where
  saltRounds : Nat := 10

/-- `generate`: returns `bcrypt.hash(plainPassword, this.saltRounds)`; the
fresh random salt drawn by bcrypt is an explicit argument. -/
def HashPassword.generate (self : HashPassword) (plainPassword : String)
    (salt : Nat) : String :=
  bcryptHash plainPassword self.saltRounds salt

/-- `compare`: returns `bcrypt.compare(plainPassword, hash)`. -/
def HashPassword.compare (self : HashPassword) (plainPassword : String)
    (hash : String) : Bool :=
  bcryptCompare plainPassword hash

/-! #### Lemmas about the decimal rendering and the hash layout -/

theorem charDigit_digitChar {d : Nat} (hd : d < 10) :
    charDigit (digitChar d) = d := by
  interval_cases d <;> rfl

theorem digitChar_ne_dollar {d : Nat} (hd : d < 10) : digitChar d ≠ '$' := by
  interval_cases d <;> decide

theorem dollar_not_mem_natChars (n : Nat) : '$' ∉ natChars n := by
  intro h
  rcases List.mem_map.mp h with ⟨d, hd, hEq⟩
  exact digitChar_ne_dollar
    (Nat.digits_lt_base (by norm_num) (List.mem_reverse.mp hd)) hEq

theorem decChars_natChars (n : Nat) : decChars (natChars n) = n := by
  unfold decChars natChars
  rw [List.map_reverse, List.map_map]
  have hmap : (Nat.digits 10 n).reverse.map (charDigit ∘ digitChar) =
      (Nat.digits 10 n).reverse.map id := by
    apply List.map_congr_left
    intro d hd
    simp [charDigit_digitChar
      (Nat.digits_lt_base (by norm_num) (List.mem_reverse.mp hd))]
  rw [hmap, List.map_id, List.reverse_reverse, Nat.ofDigits_digits]

theorem natChars_injective : Function.Injective natChars := by
  intro a b h
  have := congrArg decChars h
  rwa [decChars_natChars, decChars_natChars] at this

theorem splitAtChar_append {c : Char} {l : List Char} (hl : c ∉ l)
    (r : List Char) : splitAtChar c (l ++ c :: r) = (l, r) := by
  induction l with
  | nil => simp [splitAtChar]
  | cons x xs ih =>
    have hx : x ≠ c := fun h => hl (h ▸ List.mem_cons_self x xs)
    have hxs : c ∉ xs := fun h => hl (List.mem_cons_of_mem x h)
    simp [splitAtChar, hx, ih hxs]

theorem splitAtChar_hashData (p : String) (c s : Nat) :
    splitAtChar '$' (bcryptHashData p c s) =
      (natChars c, natChars s ++ ('$' :: p.data)) := by
  unfold bcryptHashData
  exact splitAtChar_append (dollar_not_mem_natChars c) _

theorem splitAtChar_saltPlain (p : String) (s : Nat) :
    splitAtChar '$' (natChars s ++ ('$' :: p.data)) = (natChars s, p.data) :=
  splitAtChar_append (dollar_not_mem_natChars s) _

theorem bcryptCompare_bcryptHash (p q : String) (cost salt : Nat) :
    bcryptCompare p (bcryptHash q cost salt) =
      (bcryptHashData q cost salt == bcryptHashData p cost salt) := by
  show (bcryptHashData q cost salt == bcryptHashData p
      (decChars (splitAtChar '$' (bcryptHashData q cost salt)).1)
      (decChars
        (splitAtChar '$' (splitAtChar '$' (bcryptHashData q cost salt)).2).1)) =
    _
  simp only [splitAtChar_hashData, splitAtChar_saltPlain, decChars_natChars]

theorem bcryptHashData_inj_plain {p q : String} {cost salt : Nat}
    (h : bcryptHashData p cost salt = bcryptHashData q cost salt) : p = q := by
  unfold bcryptHashData at h
  have h1 := List.append_cancel_left h
  have h2 := List.cons_injective h1
  have h3 := List.append_cancel_left h2
  have h4 := List.cons_injective h3
  exact String.ext h4

/-! ### Upload storage: `storage.filename` and `upload.single` -/

/-- The fields of a multer `file` object used by this module. -/
structure MulterFile where
  originalname : String
  mimetype : String
  path : String := ""
deriving DecidableEq

/-- JavaScript template-literal interpolation of a possibly-`undefined`
string. -/
def jsInterp : Option String → String
  | none => "undefined"
  | some s => s

/-- `storage.filename`: builds
`` `${nanoid()}.${file.mimetype.split("/")[1]}` ``; the random `nanoid()`
value is an explicit argument. -/
def storageFilename (id : String) (file : MulterFile) : String :=
  id ++ "." ++ jsInterp (jsIndex (jsSplit file.mimetype '/') 1)

/-- `storage.destination`: `join("public", "image", "users")`. -/
def destination : String := String.intercalate "/" ["public", "image", "users"]

/-- The possible `value` payloads of a validation error record: a field's
string value, the request's `file` object, or `undefined`. -/
inductive ErrorValue
  | str (s : String)
  | file (f : MulterFile)
  | undef
deriving DecidableEq

/-- A structured validation error record `{param, msg, location, value}` as
produced by express-validator and by `uploadHandler`. -/
structure ValidationError where
  param : String
  msg : String
  location : String
  value : ErrorValue
deriving DecidableEq

/-- The observable outcome of `uploadHandler` (that is, of
`upload.single("image")` followed by the error-to-record callback): the
`req.file` it leaves behind, the `req.uploadError` it records, and the
paths written to disk storage. -/
structure UploadOutcome where
  file : Option MulterFile
  uploadError : Option ValidationError
  written : List String
deriving DecidableEq

/-- `uploadHandler`: runs multer's `upload.single("image")` on the
request's multipart `"image"` part (if any).  A missing part leaves
`req.file` unset and writes nothing.  A part whose declared media type the
`fileFilter` rejects is not written to disk, leaves `req.file` unset, and
records `req.uploadError = {param: "image", msg: err.message, location:
"body", value: req.file}` (with `req.file` still `undefined`).  An accepted
part is written to `destination` under the generated filename and exposed
as `req.file` with its `path`. -/
def uploadHandler (id : String) : Option MulterFile → UploadOutcome
  | none => ⟨none, none, []⟩
  | some f =>
    match fileFilter f.mimetype with
    | .error msg => ⟨none, some ⟨"image", msg, "body", .undef⟩, []⟩
    | .ok _ =>
      let path := destination ++ "/" ++ storageFilename id f
      ⟨some { f with path := path }, none, [path]⟩

/-! ### The user router: signup (`POST /`) and update (`PATCH /:userId`) -/

/-- A row of the `User` model (an external persistence collaborator). -/
structure StoredUser where
  id : Nat
  name : String
  email : String
  password : String := ""
  imageName : String := ""
deriving DecidableEq

/-- The user object passed to a rendered form view. -/
structure FormUser where
  id : Option String := none
  name : String := ""
  email : String := ""
  password : Option String := none
deriving DecidableEq

/-- How a request completes: a rendered view with a form user and an error
list, a redirect, or an error handed to `next(...)` (the generic
error-handling middleware). -/
inductive Response
  | render (view : String) (user : FormUser) (errors : List ValidationError)
  | redirect (path : String)
  | nextError (msg : String)
deriving DecidableEq

/-- The error record of `body("name", "Name can't be blank").notEmpty()`. -/
def nameBlankError (value : String) : ValidationError :=
  ⟨"name", "Name can't be blank", "body", .str value⟩

/-- The error record of `body("email", "Email can't be blank").notEmpty()`. -/
def emailBlankError (value : String) : ValidationError :=
  ⟨"email", "Email can't be blank", "body", .str value⟩

/-- The error record of
`body("password", "Password can't be blank").notEmpty()`. -/
def passwordBlankError (value : String) : ValidationError :=
  ⟨"password", "Password can't be blank", "body", .str value⟩

/-- Modelled from the spec: `isUniqueEmail` (a middleware not under `src/`)
is a custom validator failing on an email an existing user already holds;
express-validator reports a failing custom validator with its default
message. -/
def uniqueEmailError (value : String) : ValidationError :=
  ⟨"email", "Invalid value", "body", .str value⟩

/-- The `validationResult(req)` error list for `PATCH /:userId`: the
`notEmpty` validators on `name` and `email`, in declaration order. -/
def patchFieldErrors (name email : String) : List ValidationError :=
  (if name = "" then [nameBlankError name] else []) ++
  (if email = "" then [emailBlankError email] else [])

/-- JavaScript `s.replace(pat, repl)` for a non-empty string pattern:
replace the first occurrence of `pat`, if any. -/
def replaceFirstData (pat repl : List Char) : List Char → List Char
  | [] => []
  | x :: xs =>
    if pat.isPrefixOf (x :: xs) then repl ++ (x :: xs).drop pat.length
    else x :: replaceFirstData pat repl xs

/-- JavaScript `s.replace(pat, repl)` on strings (non-empty `pat`). -/
def jsReplaceFirst (s pat repl : String) : String :=
  (replaceFirstData pat.data repl.data s.data).asString

/-- `User.find(Number(userId))` over the external user table; the route
parameter is modelled already parsed to its numeric value. -/
def findUser (db : List StoredUser) (userId : Nat) : Option StoredUser :=
  db.find? (fun u => u.id == userId)

/-- The parts of a `PATCH /:userId` request the handler reads: the parsed
route parameter, the `name` and `email` body fields, and the multipart
`"image"` part, if any. -/
structure UpdateRequest where
  userId : Nat
  name : String
  email : String
  file : Option MulterFile
deriving DecidableEq

/-- The observable outcome of the `PATCH /:userId` handler. -/
structure PatchResult where
  response : Response
  savedUser : Option StoredUser
  written : List String
deriving DecidableEq

/-- The `PATCH /:userId` handler: runs `uploadHandler`, collects the field
validation errors, and on any error (field or upload) re-renders
`users/edit` with the submitted `name`/`email` and the merged error list
(the upload error pushed after the field errors).  Otherwise it finds the
user, assigns `name` and `email`, sets `imageName` from the stored file's
path with `"public"` replaced away when a file was uploaded (logging and
ignoring when none was), updates, and redirects.  `nanoidValue` is the
random `nanoid()` drawn for the filename. -/
def patchUser (db : List StoredUser) (nanoidValue : String)
    (req : UpdateRequest) : PatchResult :=
  let up := uploadHandler nanoidValue req.file
  let errors := patchFieldErrors req.name req.email
  if !errors.isEmpty || up.uploadError.isSome then
    { response := .render "users/edit"
        { id := some (toString req.userId), name := req.name,
          email := req.email }
        (errors ++ up.uploadError.toList)
      savedUser := none
      written := up.written }
  else
    match findUser db req.userId with
    | none =>
      { response := .nextError "Invalid error: The user is undefined."
        savedUser := none
        written := up.written }
    | some user =>
      let user := { user with name := req.name, email := req.email }
      let user :=
        match up.file with
        | some f => { user with imageName := jsReplaceFirst f.path "public" "" }
        | none => user
      { response := .redirect ("/users/" ++ toString user.id)
        savedUser := some user
        written := up.written }

/-- The parts of a `POST /` signup request the handler reads. -/
structure SignupRequest where
  name : String
  email : String
  password : String
deriving DecidableEq

/-- The `validationResult(req)` error list for `POST /`: the `notEmpty`
validators on `name`, `email`, `password`, then the `isUniqueEmail` custom
validator, in declaration order. -/
def signupFieldErrors (db : List StoredUser) (req : SignupRequest) :
    List ValidationError :=
  (if req.name = "" then [nameBlankError req.name] else []) ++
  (if req.email = "" then [emailBlankError req.email] else []) ++
  (if req.password = "" then [passwordBlankError req.password] else []) ++
  (if db.any (fun u => u.email == req.email) then [uniqueEmailError req.email]
   else [])

/-- The observable outcome of the `POST /` handler; `hashComputed` records
whether the handler reached the `HashPassword().generate` call. -/
structure SignupResult where
  response : Response
  savedUser : Option StoredUser
  hashComputed : Bool
deriving DecidableEq

/-- The `POST /` signup handler: on any validation error it re-renders
`users/new` with the submitted fields and the error list, creating no user
and computing no hash; otherwise it hashes the password, saves the new
user, and redirects to its page.  `salt` is the random salt bcrypt draws
and `newId` the id the persistence layer assigns. -/
def createUser (db : List StoredUser) (req : SignupRequest) (salt newId : Nat) :
    SignupResult :=
  let errors := signupFieldErrors db req
  if !errors.isEmpty then
    { response := .render "users/new"
        { name := req.name, email := req.email, password := some req.password }
        errors
      savedUser := none
      hashComputed := false }
  else
    let hashPassword := ({} : HashPassword).generate req.password salt
    let user : StoredUser :=
      { id := newId, name := req.name, email := req.email,
        password := hashPassword }
    { response := .redirect ("/users/" ++ toString newId)
      savedUser := some user
      hashComputed := true }

/-! ### Helper lemmas for the claim theorems -/

theorem storageFilename_of_accepted {s t sub : String}
    (h : toAcceptableImageMediaType s = some (t, sub)) :
    jsIndex (jsSplit s '/') 1 = some sub := by
  unfold toAcceptableImageMediaType at h
  rcases h1 : jsIndex (jsSplit s '/') 1 with _ | st
  · simp only [h1] at h
    split_ifs at h
  · simp only [h1] at h
    split_ifs at h
    simp_all

theorem string_append_cancel_right {a b c : String} (h : a ++ c = b ++ c) :
    a = b := by
  have hd : a.data ++ c.data = b.data ++ c.data := by
    rw [← String.data_append, ← String.data_append, h]
  exact String.ext (List.append_cancel_right hd)

/-! ### The claims -/

/-- C2: for every plaintext `p` (and every salt bcrypt may draw),
`compare(p, generate(p))` returns `true`: a hash produced by
`HashPassword.generate` always verifies against the plaintext it was
generated from. -/
theorem compare_generate_roundtrip (hp : HashPassword) (p : String)
    (salt : Nat) : hp.compare p (hp.generate p salt) = true := by
  show bcryptCompare p (bcryptHash p hp.saltRounds salt) = true
  rw [bcryptCompare_bcryptHash]
  exact beq_self_eq_true _

/-- C3: two `generate(p)` calls drawing different salts produce different
hash strings, and both hashes verify against `p`. -/
theorem generate_twice_differs (hp : HashPassword) (p : String)
    (s1 s2 : Nat) (hne : s1 ≠ s2) :
    hp.generate p s1 ≠ hp.generate p s2 ∧
    hp.compare p (hp.generate p s1) = true ∧
    hp.compare p (hp.generate p s2) = true := by
  refine ⟨?_, compare_generate_roundtrip hp p s1,
    compare_generate_roundtrip hp p s2⟩
  intro h
  apply hne
  have hd : bcryptHashData p hp.saltRounds s1 =
      bcryptHashData p hp.saltRounds s2 := congrArg String.data h
  unfold bcryptHashData at hd
  have h1 := List.cons_injective (List.append_cancel_left hd)
  have h2 := congrArg (splitAtChar '$') h1
  rw [splitAtChar_saltPlain, splitAtChar_saltPlain] at h2
  exact natChars_injective (congrArg Prod.fst h2)

/-- C3 witness: distinct salts 1 and 2 on the password `"pw"`. -/
theorem generate_twice_differs_witness :
    (1 : Nat) ≠ 2 ∧
    (({} : HashPassword).generate "pw" 1 ≠ ({} : HashPassword).generate "pw" 2 ∧
      ({} : HashPassword).compare "pw" (({} : HashPassword).generate "pw" 1) = true ∧
      ({} : HashPassword).compare "pw" (({} : HashPassword).generate "pw" 2) = true) :=
  ⟨by decide, generate_twice_differs {} "pw" 1 2 (by decide)⟩

/-- C4: verifying a plaintext against a hash generated from a different
plaintext never falsely accepts (in the idealized collision-free model of
bcrypt's digest). -/
theorem compare_no_false_accept (hp : HashPassword) (p1 p2 : String)
    (salt : Nat) (hne : p1 ≠ p2) :
    hp.compare p1 (hp.generate p2 salt) = false := by
  show bcryptCompare p1 (bcryptHash p2 hp.saltRounds salt) = false
  rw [bcryptCompare_bcryptHash]
  exact beq_eq_false_iff_ne.mpr fun h =>
    hne (bcryptHashData_inj_plain h).symm

/-- C4 witness: `"other"` against a hash of `"s3cret"`. -/
theorem compare_no_false_accept_witness :
    "other" ≠ "s3cret" ∧
    ({} : HashPassword).compare "other"
      (({} : HashPassword).generate "s3cret" 7) = false :=
  ⟨by decide, compare_no_false_accept {} "other" "s3cret" 7 (by decide)⟩

/-- C1: `toAcceptableImageMediaType` accepts a declared media type exactly
when its type part (first `"/"`-separated segment) is `"image"` and its
subtype part (second segment) is in the allow-list `{png, jpeg}`; every
rejected value makes `fileFilter` report the descriptive rejection
message; and the five reference examples behave as stated. -/
theorem classify_allowlist :
    (∀ s : String,
      (toAcceptableImageMediaType s).isSome = true ↔
        (jsIndex (jsSplit s '/') 0 = some "image" ∧
          (jsIndex (jsSplit s '/') 1 = some "png" ∨
            jsIndex (jsSplit s '/') 1 = some "jpeg"))) ∧
    (∀ s : String, toAcceptableImageMediaType s = none →
      fileFilter s = .error rejectionMessage) ∧
    toAcceptableImageMediaType "image/png" = some ("image", "png") ∧
    toAcceptableImageMediaType "image/jpeg" = some ("image", "jpeg") ∧
    toAcceptableImageMediaType "image/gif" = none ∧
    toAcceptableImageMediaType "text/plain" = none ∧
    toAcceptableImageMediaType "image" = none := by
  refine ⟨?_, ?_, by decide, by decide, by decide, by decide, by decide⟩
  · intro s
    unfold toAcceptableImageMediaType
    rcases h0 : jsIndex (jsSplit s '/') 0 with _ | mt
    · simp [jsFalsyStr, h0]
    · rcases h1 : jsIndex (jsSplit s '/') 1 with _ | st
      · simp [jsFalsyStr, h0, h1]
      · simp only [h0, h1, jsFalsyStr]
        by_cases hmt : mt = "image"
        · subst hmt
          by_cases hpng : st = "png"
          · subst hpng
            simp [isAcceptableSubtype, ACCEPTABLE_SUBTYPES]
          · by_cases hjpeg : st = "jpeg"
            · subst hjpeg
              simp [isAcceptableSubtype, ACCEPTABLE_SUBTYPES]
            · by_cases hempty : st = "" <;>
                simp_all [isAcceptableSubtype, ACCEPTABLE_SUBTYPES]
        · by_cases hmtEmpty : mt = "" <;> by_cases hstEmpty : st = "" <;>
            simp_all [isAcceptableSubtype, ACCEPTABLE_SUBTYPES]
  · intro s h
    simp [fileFilter, h]

/-- C1 witness: `"text/plain"` is rejected and `fileFilter` reports the
descriptive message for it. -/
theorem classify_allowlist_witness :
    toAcceptableImageMediaType "text/plain" = none ∧
    fileFilter "text/plain" = .error rejectionMessage :=
  ⟨by decide, classify_allowlist.2.1 "text/plain" (by decide)⟩

/-- C5: for every file, distinct `nanoid()` draws give distinct generated
filenames; for every accepted media type the filename is the random id
followed by `"."` and the accepted subtype (so it ends in the matching
extension); and the filename never depends on the client-supplied
`originalname` (nor on the incoming `path`). -/
theorem storageFilename_spec :
    (∀ (id1 id2 : String) (f : MulterFile), id1 ≠ id2 →
      storageFilename id1 f ≠ storageFilename id2 f) ∧
    (∀ (id : String) (f : MulterFile) (t sub : String),
      toAcceptableImageMediaType f.mimetype = some (t, sub) →
      storageFilename id f = id ++ "." ++ sub) ∧
    (∀ (id mt o1 o2 p1 p2 : String),
      storageFilename id ⟨o1, mt, p1⟩ = storageFilename id ⟨o2, mt, p2⟩) := by
  refine ⟨?_, ?_, ?_⟩
  · intro id1 id2 f hne h
    unfold storageFilename at h
    exact hne (string_append_cancel_right (string_append_cancel_right h))
  · intro id f t sub h
    unfold storageFilename
    rw [storageFilename_of_accepted h]
    rfl
  · intro id mt o1 o2 p1 p2
    rfl

/-- C5 witness: two draws `"abc"` and `"xyz"` for an accepted
`"image/jpeg"` file give distinct names, and the name for draw `"abc"` is
`"abc.jpeg"`. -/
theorem storageFilename_spec_witness :
    "abc" ≠ "xyz" ∧
    storageFilename "abc" ⟨"cat.gif", "image/jpeg", ""⟩ ≠
      storageFilename "xyz" ⟨"cat.gif", "image/jpeg", ""⟩ ∧
    storageFilename "abc" ⟨"cat.gif", "image/jpeg", ""⟩ = "abc" ++ "." ++ "jpeg" :=
  ⟨by decide,
    storageFilename_spec.1 "abc" "xyz" ⟨"cat.gif", "image/jpeg", ""⟩ (by decide),
    storageFilename_spec.2.1 "abc" ⟨"cat.gif", "image/jpeg", ""⟩ "image" "jpeg"
      (by decide)⟩

/-- C10: a declared media type with more than one `"/"` whose first two
segments are `"image"` and an allow-listed subtype is accepted, all later
segments ignored, and the generated filename's extension comes from the
second segment only. -/
theorem multiSlash_accepts (s : String)
    (hlen : 2 < (jsSplit s '/').length)
    (h0 : jsIndex (jsSplit s '/') 0 = some "image")
    (sub : String) (h1 : jsIndex (jsSplit s '/') 1 = some sub)
    (hsub : sub ∈ ["png", "jpeg"]) :
    toAcceptableImageMediaType s = some ("image", sub) ∧
    ∀ (id o p : String), storageFilename id ⟨o, s, p⟩ = id ++ "." ++ sub := by
  constructor
  · simp only [List.mem_cons, List.not_mem_nil, or_false] at hsub
    rcases hsub with rfl | rfl <;>
      simp [toAcceptableImageMediaType, h0, h1, jsFalsyStr,
        isAcceptableSubtype, ACCEPTABLE_SUBTYPES]
  · intro id o p
    unfold storageFilename
    simp only [h1]
    rfl

/-- C10 witness: `"image/png/extra"` is accepted as `("image", "png")` and
named with extension `".png"`. -/
theorem multiSlash_accepts_witness :
    2 < (jsSplit "image/png/extra" '/').length ∧
    toAcceptableImageMediaType "image/png/extra" = some ("image", "png") ∧
    storageFilename "abc" ⟨"o.bin", "image/png/extra", ""⟩ =
      "abc" ++ "." ++ "png" :=
  ⟨by decide,
    (multiSlash_accepts "image/png/extra" (by decide) (by decide) "png"
      (by decide) (by decide)).1,
    (multiSlash_accepts "image/png/extra" (by decide) (by decide) "png"
      (by decide) (by decide)).2 "abc" "o.bin" ""⟩

/-- C6: when the uploaded file's declared media type is rejected, the
`PATCH /:userId` handler reports the rejection as a structured validation
error record `{param := "image", msg, location := "body", value}` joined
after any field-validation errors of the same request, and completes by
re-rendering the edit form — no user update and no error escaping to the
pipeline. -/
theorem patch_rejection_structured (db : List StoredUser) (idv : String)
    (req : UpdateRequest) (f : MulterFile) (hfile : req.file = some f)
    (hclass : toAcceptableImageMediaType f.mimetype = none) :
    patchUser db idv req =
      { response := .render "users/edit"
          { id := some (toString req.userId), name := req.name,
            email := req.email }
          (patchFieldErrors req.name req.email ++
            [⟨"image", rejectionMessage, "body", .undef⟩])
        savedUser := none
        written := [] } := by
  simp [patchUser, uploadHandler, hfile, fileFilter, hclass]

/-- C6 witness: a PDF upload on an otherwise valid update request. -/
theorem patch_rejection_structured_witness :
    (⟨7, "Alice", "alice@example.com",
        some ⟨"cv.pdf", "application/pdf", ""⟩⟩ : UpdateRequest).file =
      some ⟨"cv.pdf", "application/pdf", ""⟩ ∧
    toAcceptableImageMediaType "application/pdf" = none ∧
    patchUser [] "n1"
        ⟨7, "Alice", "alice@example.com",
          some ⟨"cv.pdf", "application/pdf", ""⟩⟩ =
      { response := .render "users/edit"
          { id := some (toString (7 : Nat)), name := "Alice",
            email := "alice@example.com" }
          (patchFieldErrors "Alice" "alice@example.com" ++
            [⟨"image", rejectionMessage, "body", .undef⟩])
        savedUser := none
        written := [] } :=
  ⟨rfl, by decide,
    patch_rejection_structured [] "n1"
      ⟨7, "Alice", "alice@example.com",
        some ⟨"cv.pdf", "application/pdf", ""⟩⟩
      ⟨"cv.pdf", "application/pdf", ""⟩ rfl (by decide)⟩

/-- C7: a signup request with an empty `name` re-renders `users/new` with
the submitted fields and the collected errors, among which the
"Name can't be blank" record; no user is saved and no password hash is
computed (hashing sits after the validation early-return). -/
theorem signup_empty_name (db : List StoredUser) (req : SignupRequest)
    (salt newId : Nat) (hname : req.name = "") :
    (createUser db req salt newId).response =
      .render "users/new"
        { name := req.name, email := req.email,
          password := some req.password }
        (signupFieldErrors db req) ∧
    nameBlankError "" ∈ signupFieldErrors db req ∧
    (createUser db req salt newId).savedUser = none ∧
    (createUser db req salt newId).hashComputed = false := by
  refine ⟨?_, ?_, ?_, ?_⟩ <;>
    simp [createUser, signupFieldErrors, hname, nameBlankError]

/-- C7 witness: an empty name with otherwise filled-in fields. -/
theorem signup_empty_name_witness :
    (⟨"", "bob@example.com", "hunter2"⟩ : SignupRequest).name = "" ∧
    ((createUser [] ⟨"", "bob@example.com", "hunter2"⟩ 3 1).response =
      .render "users/new"
        { name := "", email := "bob@example.com", password := some "hunter2" }
        (signupFieldErrors [] ⟨"", "bob@example.com", "hunter2"⟩) ∧
      nameBlankError "" ∈ signupFieldErrors [] ⟨"", "bob@example.com", "hunter2"⟩ ∧
      (createUser [] ⟨"", "bob@example.com", "hunter2"⟩ 3 1).savedUser = none ∧
      (createUser [] ⟨"", "bob@example.com", "hunter2"⟩ 3 1).hashComputed =
        false) :=
  ⟨rfl, signup_empty_name [] ⟨"", "bob@example.com", "hunter2"⟩ 3 1 rfl⟩

/-- C8: when the uploaded file's declared media type is rejected, nothing
is written to storage and the edit form is re-rendered with the submitted
`name` and `email` preserved in its input values. -/
theorem patch_rejection_not_written (db : List StoredUser) (idv : String)
    (req : UpdateRequest) (f : MulterFile) (hfile : req.file = some f)
    (hclass : toAcceptableImageMediaType f.mimetype = none) :
    (patchUser db idv req).written = [] ∧
    ∃ errs, (patchUser db idv req).response =
      .render "users/edit"
        { id := some (toString req.userId), name := req.name,
          email := req.email }
        errs := by
  refine ⟨?_, ⟨patchFieldErrors req.name req.email ++
    [⟨"image", rejectionMessage, "body", .undef⟩], ?_⟩⟩ <;>
    simp [patchUser, uploadHandler, hfile, fileFilter, hclass]

/-- C8 witness: an `application/pdf` upload writes nothing and the form
comes back with the submitted name and email. -/
theorem patch_rejection_not_written_witness :
    toAcceptableImageMediaType "application/pdf" = none ∧
    ((patchUser [⟨7, "Old", "old@example.com", "", "/old.png"⟩] "n1"
        ⟨7, "Alice", "alice@example.com",
          some ⟨"cv.pdf", "application/pdf", ""⟩⟩).written = [] ∧
      ∃ errs,
        (patchUser [⟨7, "Old", "old@example.com", "", "/old.png"⟩] "n1"
          ⟨7, "Alice", "alice@example.com",
            some ⟨"cv.pdf", "application/pdf", ""⟩⟩).response =
          .render "users/edit"
            { id := some (toString (7 : Nat)), name := "Alice",
              email := "alice@example.com" }
            errs) :=
  ⟨by decide,
    patch_rejection_not_written [⟨7, "Old", "old@example.com", "", "/old.png"⟩]
      "n1"
      ⟨7, "Alice", "alice@example.com",
        some ⟨"cv.pdf", "application/pdf", ""⟩⟩
      ⟨"cv.pdf", "application/pdf", ""⟩ rfl (by decide)⟩

/-- C9: a valid update request with no uploaded file leaves the stored
`imageName` unchanged, updates `name` and `email`, writes nothing to
storage, and completes with the success redirect. -/
theorem patch_no_file_frame (db : List StoredUser) (idv : String)
    (req : UpdateRequest) (u : StoredUser) (hname : req.name ≠ "")
    (hemail : req.email ≠ "") (hfile : req.file = none)
    (hfind : findUser db req.userId = some u) :
    patchUser db idv req =
      { response := .redirect ("/users/" ++ toString u.id)
        savedUser := some { u with name := req.name, email := req.email }
        written := [] } ∧
    ∃ u', (patchUser db idv req).savedUser = some u' ∧
      u'.imageName = u.imageName ∧ u'.name = req.name ∧
      u'.email = req.email := by
  have h : patchUser db idv req =
      { response := .redirect ("/users/" ++ toString u.id)
        savedUser := some { u with name := req.name, email := req.email }
        written := [] } := by
    simp [patchUser, uploadHandler, hfile, patchFieldErrors, hname, hemail,
      hfind]
  exact ⟨h, ⟨{ u with name := req.name, email := req.email }, by rw [h], rfl,
    rfl, rfl⟩⟩

/-- C9 witness: an update with no file keeps the stored image name. -/
theorem patch_no_file_frame_witness :
    ("Alice" : String) ≠ "" ∧
    findUser [⟨7, "Old", "old@example.com", "", "/image/users/a.png"⟩] 7 =
      some ⟨7, "Old", "old@example.com", "", "/image/users/a.png"⟩ ∧
    (patchUser [⟨7, "Old", "old@example.com", "", "/image/users/a.png"⟩] "n1"
        ⟨7, "Alice", "alice@example.com", none⟩ =
      { response := .redirect ("/users/" ++ toString
          (⟨7, "Old", "old@example.com", "", "/image/users/a.png"⟩ :
            StoredUser).id)
        savedUser := some { (⟨7, "Old", "old@example.com", "",
            "/image/users/a.png"⟩ : StoredUser) with
          name := "Alice", email := "alice@example.com" }
        written := [] } ∧
      ∃ u',
        (patchUser [⟨7, "Old", "old@example.com", "", "/image/users/a.png"⟩]
          "n1" ⟨7, "Alice", "alice@example.com", none⟩).savedUser = some u' ∧
        u'.imageName =
          (⟨7, "Old", "old@example.com", "", "/image/users/a.png"⟩ :
            StoredUser).imageName ∧
        u'.name = "Alice" ∧ u'.email = "alice@example.com") :=
  ⟨by decide, by decide,
    patch_no_file_frame [⟨7, "Old", "old@example.com", "", "/image/users/a.png"⟩]
      "n1" ⟨7, "Alice", "alice@example.com", none⟩
      ⟨7, "Old", "old@example.com", "", "/image/users/a.png"⟩
      (by decide) (by decide) rfl (by decide)⟩

end UserModule
